import Mathlib

/-!
Verification development for the Remote-Monitor-Controller brightness tray
application.  The Python sources are shallowly embedded:

* Python floats are modelled as exact rationals (`ℚ`) where the computation
  stays exact, and as reals (`ℝ`) for the logarithmic lux curve.
* `datetime` instants are modelled as rational numbers of minutes in the
  (fixed) schedule timezone; a calendar date is the integer `⌊t / 1440⌋` and
  `datetime.combine(date, time(h, m))` is `date * 1440 + 60 * h + m`.
* Python's `round` (banker's rounding, round-half-to-even) is `pyRound`.
* The astral sunrise/sunset computation and the IP geolocation lookup are
  external dependencies of the repository; they are modelled as oracle
  functions supplied to the engine (`SunEnv`).
* Python dicts that the code iterates over are modelled as association lists
  in insertion order; `list.sort` (a stable sort) is modelled by a stable
  insertion sort.
-/

/-- Python `round` for a real number represented exactly as a rational:
round half to even (`round(0.5) = 0`, `round(1.5) = 2`). -/
def pyRound (q : ℚ) : Int :=
  let f : Int := ⌊q⌋
  let r : ℚ := q - (f : ℚ)
  if r < 1 / 2 then f
  else if 1 / 2 < r then f + 1
  else if f % 2 = 0 then f else f + 1

/-- `models.clamp_brightness`: `max(0, min(100, int(round(value))))`. -/
def clamp_brightness (value : ℚ) : Int :=
  max 0 (min 100 (pyRound value))

/-- `models.AnchorType`. -/
inductive AnchorType
  | sunrise
  | sunset
  | time
deriving DecidableEq, Repr

/-- `models.RuleTarget`. -/
inductive RuleTarget
  | display1
  | display2
  | both
deriving DecidableEq, Repr

/-- `models.ScheduleRule`. -/
structure ScheduleRule where
  anchor : AnchorType
  offset_minutes : Int
  brightness : Int
  target : RuleTarget
  specific_time : Option String
deriving DecidableEq, Repr

/-- `models.default_schedule_rules`. -/
def default_schedule_rules : List ScheduleRule :=
  [⟨.sunrise, -60, 50, .both, none⟩,
   ⟨.sunrise, -30, 75, .both, none⟩,
   ⟨.sunrise, 0, 100, .both, none⟩,
   ⟨.sunset, 0, 100, .both, none⟩,
   ⟨.sunset, 30, 75, .both, none⟩,
   ⟨.sunset, 60, 50, .both, none⟩]

/-- `models.ScheduleSettings` (latitude/longitude as exact rationals). -/
structure ScheduleSettings where
  enabled : Bool
  gradual : Bool
  auto_location : Bool
  latitude : Option ℚ
  longitude : Option ℚ
  rules : List ScheduleRule
deriving DecidableEq, Repr

/-- `models.AppConfig`; `monitor_levels` is the dict as an association list in
insertion order. -/
structure AppConfig where
  version : Int
  theme : String
  link_mode : Bool
  ambient_auto_enabled : Bool
  last_global_brightness : Int
  monitor_levels : List (String × Int)
  startup_enabled : Bool
  schedule : ScheduleSettings
deriving DecidableEq, Repr

/-- Default `ScheduleSettings()`. -/
def defaultScheduleSettings : ScheduleSettings :=
  ⟨false, true, true, none, none, default_schedule_rules⟩

/-- Default `AppConfig()`. -/
def defaultAppConfig : AppConfig :=
  ⟨1, "dark", true, false, 100, [], true, defaultScheduleSettings⟩

/-- Python `str.strip()`: drop leading and trailing whitespace. -/
def stripList (cs : List Char) : List Char :=
  ((cs.dropWhile Char.isWhitespace).reverse.dropWhile Char.isWhitespace).reverse

/-- Python `str.strip()` on a string. -/
def pyStrip (s : String) : String :=
  String.mk (stripList s.toList)

/-- Python `str.lower()` on one character (the strings this program lowers
are ASCII keywords; non-ASCII case folding is not modelled). -/
def lowerChar (c : Char) : Char :=
  if 'A' ≤ c ∧ c ≤ 'Z' then Char.ofNat (c.toNat + 32) else c

/-- Python `str.lower()`. -/
def pyLower (s : String) : String :=
  String.mk (s.toList.map lowerChar)

/-- Digits of a Python `int()` literal: all characters must be decimal
digits and at least one must be present. -/
def digitsToNat : List Char → Option Nat
  | [] => none
  | cs =>
    if cs.all Char.isDigit then
      some (cs.foldl (fun a c => a * 10 + (c.toNat - 48)) 0)
    else none

/-- Python `int(s)` on a string: optional surrounding whitespace, optional
sign, then decimal digits (digit-group underscores never occur in the inputs
this program parses and are not modelled).  `none` models `ValueError`. -/
def pyIntOfString (s : String) : Option Int :=
  match stripList s.toList with
  | [] => none
  | '+' :: cs => (digitsToNat cs).map Int.ofNat
  | '-' :: cs => (digitsToNat cs).map (fun n => -(n : Int))
  | cs => (digitsToNat cs).map Int.ofNat

/-- `text.split(":", 1)`: split at the first colon; `none` when the string
contains no colon (the `":" not in text` guard). -/
def splitFirstColon : List Char → Option (List Char × List Char)
  | [] => none
  | c :: rest =>
    if c = ':' then some ([], rest)
    else (splitFirstColon rest).map (fun p => (c :: p.1, p.2))

/-- `SunScheduleEngine._parse_time`: strip, require a colon, parse the two
integer pieces, range-check hour and minute. -/
def parse_time (value : Option String) : Option (Nat × Nat) :=
  match value with
  | none => none
  | some v =>
    if v = "" then none
    else
      match splitFirstColon (stripList v.toList) with
      | none => none
      | some (hs, ms) =>
        match pyIntOfString (String.mk hs), pyIntOfString (String.mk ms) with
        | some hour, some minute =>
          if hour < 0 ∨ 23 < hour ∨ minute < 0 ∨ 59 < minute then none
          else some (hour.toNat, minute.toNat)
        | _, _ => none

/-- One evaluation point `(anchor instant, clamped brightness)`. -/
abbrev SchedulePoint := ℚ × Int

/-- External dependencies of the controller: the astral sunrise/sunset
computation (`SunScheduleEngine._get_sun_events`, returning both events for a
date or `None`) and the IP geolocation lookup (`location.detect_location_from_ip`). -/
structure SunEnv where
  sunEvents : Int → ℚ → ℚ → Option (ℚ × ℚ)
  detectLocation : Option (ℚ × ℚ)

/-- Whether any active rule is sun-anchored
(`any(rule.anchor in ("sunrise", "sunset") ...)`). -/
def uses_sun_events (rules : List ScheduleRule) : Bool :=
  rules.any (fun r => r.anchor = .sunrise ∨ r.anchor = .sunset)

/-- The points contributed by one `day_offset` iteration of
`SunScheduleEngine.target_brightness`'s collection loop. -/
def day_points (env : SunEnv) (schedule : ScheduleSettings)
    (active_rules : List ScheduleRule) (now : ℚ) (uses_sun : Bool)
    (day_offset : Int) : List SchedulePoint :=
  let target_date : Int := ⌊(now + (day_offset : ℚ) * 1440) / 1440⌋
  if uses_sun ∧ (schedule.latitude = none ∨ schedule.longitude = none) then []
  else
    let sun_events : Option (ℚ × ℚ) :=
      if uses_sun then
        match schedule.latitude, schedule.longitude with
        | some lat, some lon => env.sunEvents target_date lat lon
        | _, _ => none
      else none
    active_rules.filterMap (fun rule =>
      match rule.anchor with
      | .time =>
        match parse_time rule.specific_time with
        | none => none
        | some (h, m) =>
          some (((target_date : ℚ) * 1440 + h * 60 + m, clamp_brightness rule.brightness))
      | _ =>
        match sun_events with
        | none => none
        | some (sunrise, sunset) =>
          let anchor_time := if rule.anchor = .sunrise then sunrise else sunset
          some ((anchor_time + (rule.offset_minutes : ℚ),
                 clamp_brightness rule.brightness)))

/-- All points of the three candidate days (`for day_offset in (-1, 0, 1)`). -/
def schedule_points (env : SunEnv) (schedule : ScheduleSettings)
    (active_rules : List ScheduleRule) (now : ℚ) : List SchedulePoint :=
  ([-1, 0, 1] : List Int).flatMap
    (day_points env schedule active_rules now (uses_sun_events active_rules))

/-- Insert a point after every already-placed point whose instant is `≤` its
own (together with `sortPoints` this is a stable sort by instant, matching
Python's stable `points.sort(key=lambda point: point[0])`). -/
def insertPoint (p : SchedulePoint) : List SchedulePoint → List SchedulePoint
  | [] => [p]
  | q :: rest => if q.1 ≤ p.1 then q :: insertPoint p rest else p :: q :: rest

/-- Stable insertion sort by instant. -/
def sortPoints (points : List SchedulePoint) : List SchedulePoint :=
  points.foldl (fun acc p => insertPoint p acc) []

/-- The `previous`/`following` selection loop of
`SunScheduleEngine.target_brightness` (lines 79–84): walk the sorted points,
remembering the last point `≤ now`, and stop at the first point `> now`. -/
def selection_loop (now : ℚ) :
    List SchedulePoint → SchedulePoint → SchedulePoint → SchedulePoint × SchedulePoint
  | [], previous, following => (previous, following)
  | p :: rest, previous, following =>
    if p.1 ≤ now then selection_loop now rest p following
    else (previous, p)

/-- `SunScheduleEngine._interpolate`. -/
def interpolate (current_time : ℚ) (previous following : SchedulePoint) : Int :=
  let start_time := previous.1
  let start_value := previous.2
  let end_time := following.1
  let end_value := following.2
  if end_time ≤ start_time then clamp_brightness (end_value : ℚ)
  else
    let elapsed := current_time - start_time
    let duration := end_time - start_time
    let ratio := max 0 (min 1 (elapsed / duration))
    clamp_brightness ((start_value : ℚ) + ((end_value : ℚ) - (start_value : ℚ)) * ratio)

/-- `models.clamp_brightness` specialised to an integer argument
(`int(round(n)) = n` for an `int` input). -/
def clamp_brightness_int (n : Int) : Int :=
  max 0 (min 100 n)

/-- The ambient step-limiter of
`BrightnessControlWindow._handle_ambient_timer_tick` (ui.py lines
1684–1691): from the previous applied level and the desired level, compute
the level to apply, or `none` for the deadband early-return (no change
emitted, no state change).  `_AMBIENT_APPLY_DEADBAND = 2`,
`_AMBIENT_MAX_STEP = 4`; `abs(delta)` is `Int.natAbs`. -/
def ambient_next_level (last_applied : Option Int) (desired_level : Int) : Option Int :=
  match last_applied with
  | none => some desired_level
  | some last =>
    let delta := desired_level - last
    if delta.natAbs < 2 then none
    else some (clamp_brightness_int (last + max (-4) (min 4 delta)))

/-- `last_ambient_applied` after one tick of the step-limiter with a fixed
desired level (the suppressed tick leaves it unchanged). -/
def ambient_tick (desired last : Int) : Int :=
  (ambient_next_level (some last) desired).getD last

/-- `last_ambient_applied` after `n` ticks of the step-limiter with a fixed
desired level. -/
def ambient_iter (desired last : Int) : Nat → Int
  | 0 => last
  | n + 1 => ambient_tick desired (ambient_iter desired last n)

/-- Python `round` on a real value (floats are modelled as reals for the
logarithmic lux curve): round half to even. -/
noncomputable def pyRoundReal (x : ℝ) : Int :=
  if x - (⌊x⌋ : ℝ) < 1 / 2 then ⌊x⌋
  else if 1 / 2 < x - (⌊x⌋ : ℝ) then ⌊x⌋ + 1
  else if ⌊x⌋ % 2 = 0 then ⌊x⌋ else ⌊x⌋ + 1

/-- `models.clamp_brightness` on a real argument. -/
noncomputable def clamp_brightness_real (value : ℝ) : Int :=
  max 0 (min 100 (pyRoundReal value))

/-- `BrightnessControlWindow._map_lux_to_brightness` (ui.py lines
1736–1744); `math.log10 t` is `Real.logb 10 t`. -/
noncomputable def map_lux_to_brightness (lux : ℝ) : Int :=
  let safe_lux := max 0 lux
  let normalized := Real.logb 10 (safe_lux + 1) / Real.logb 10 801
  let clamped := max 0 (min 1 normalized)
  let minimum_brightness : ℝ := 6
  let maximum_brightness : ℝ := 100
  clamp_brightness_real
    (minimum_brightness + clamped * (maximum_brightness - minimum_brightness))

/-- The mutex-guarded state of `AmbientLightService`: the latest successful
lux reading and the last error text. -/
structure SensorState where
  latest_lux : Option ℚ
  last_error : Option String
deriving DecidableEq, Repr

/-- One iteration of `AmbientLightService._poll_loop` (lines 70–77), given
the outcome of `_query_lux` for that iteration (`none` = failed poll). -/
def poll_step (s : SensorState) (lux : Option ℚ) : SensorState :=
  match lux with
  | some v => { latest_lux := some v, last_error := none }
  | none =>
    if s.latest_lux = none then
      { s with last_error := some "Ambient light sensor reading unavailable." }
    else s

/-- A run of the polling loop over a sequence of `_query_lux` outcomes. -/
def poll_run (s : SensorState) (outcomes : List (Option ℚ)) : SensorState :=
  outcomes.foldl poll_step s

/-- `AmbientLightService.latest_lux`: snapshot read of the shared state. -/
def latest_lux (s : SensorState) : Option ℚ :=
  s.latest_lux

/-- The last successful reading in a sequence of poll outcomes. -/
def last_success (outcomes : List (Option ℚ)) : Option ℚ :=
  outcomes.foldl (fun acc o => match o with | some v => some v | none => acc) none

/-- The negative-reading clamp of `AmbientLightService._query_lux` (lines
124–126).  The subprocess invocation, exit-code check and float-pattern
extraction of lines 87–123 are external I/O modelled by the `raw` argument:
`raw = none` is any of the failure paths, `raw = some l` is a successfully
parsed float `l`. -/
def query_result (raw : Option ℚ) : Option ℚ :=
  raw.map (fun lux => if lux < 0 then 0 else lux)

/-- `SunScheduleEngine.target_brightness`.  `rules? = none` models the
`rules=None` default argument; `now` is already an instant in the schedule
timezone (the timezone normalisation of lines 34–40 is the identity in this
time model). -/
def target_brightness (env : SunEnv) (schedule : ScheduleSettings)
    (rules? : Option (List ScheduleRule)) (now : ℚ) : Option Int :=
  if ¬schedule.enabled then none
  else
    let active_rules := rules?.getD schedule.rules
    if active_rules = [] then none
    else
      let uses_sun := uses_sun_events active_rules
      if uses_sun ∧ (schedule.latitude = none ∨ schedule.longitude = none) then none
      else
        let points := schedule_points env schedule active_rules now
        if points = [] then none
        else
          let sorted := sortPoints points
          let sel := selection_loop now sorted (sorted.headD (0, 0)) (sorted.getLastD (0, 0))
          if ¬schedule.gradual then some sel.1.2
          else some (interpolate now sel.1 sel.2)

/-- One monitor slider row of the control window (`MonitorSliderRow`):
stable monitor key and current slider value.  `set_value` clamps. -/
structure MonitorRow where
  key : String
  value : Int
deriving DecidableEq, Repr

/-- Observable side effects of the dispatch layer, in program order:
`BrightnessService.set_brightness` calls, entries into
`BrightnessControlWindow.set_link_mode`, and `ConfigStore.save` calls
(`_persist_config`). -/
inductive AppEvent
  | setBrightness (key : String) (level : Int)
  | setLinkModeCall (linked : Bool)
  | persist (config : AppConfig)
deriving DecidableEq, Repr

/-- The mutable state the schedule-dispatch path touches: the shared
`AppConfig`, the monitor rows, the global slider position, the controller's
`_expected_auto_targets` and the schedule status line. -/
structure TrayState where
  config : AppConfig
  rows : List MonitorRow
  global_slider : Int
  expected_auto_targets : List (String × Int)
  schedule_status : String
deriving DecidableEq, Repr

/-- Python `dict.get(key)` on a dict modelled as an association list in
insertion order (keys are unique in the modelled dicts). -/
def alLookup (m : List (String × Int)) (k : String) : Option Int :=
  match m with
  | [] => none
  | p :: rest => if p.1 = k then some p.2 else alLookup rest k

/-- Python `dict[key] = value`: replace in place, or append a new binding. -/
def alInsert (m : List (String × Int)) (k : String) (v : Int) : List (String × Int) :=
  if m.any (fun p => p.1 = k) then
    m.map (fun p => if p.1 = k then (k, v) else p)
  else m ++ [(k, v)]

/-- Python `dict == dict` (same keys, same values; order-insensitive). -/
def pyDictEq (a b : List (String × Int)) : Bool :=
  a.all (fun p => alLookup b p.1 = some p.2) && b.all (fun p => alLookup a p.1 = some p.2)

/-- `BrightnessControlWindow._set_global_slider_value` (clamps). -/
def set_global_slider_value (st : TrayState) (value : Int) : TrayState :=
  { st with global_slider := clamp_brightness_int value }

/-- `BrightnessControlWindow.apply_brightness_to_all`. -/
def apply_brightness_to_all (st : TrayState) (value : Int) (persist : Bool) :
    TrayState × List AppEvent :=
  let bounded := clamp_brightness_int value
  let events := st.rows.map (fun row => AppEvent.setBrightness row.key bounded)
  let st1 := { st with rows := st.rows.map (fun row => { row with value := bounded }) }
  let st2 := set_global_slider_value st1 bounded
  if persist then
    let cfg := { st2.config with
      last_global_brightness := bounded,
      monitor_levels :=
        st2.rows.foldl (fun m row => alInsert m row.key bounded) st2.config.monitor_levels }
    ({ st2 with config := cfg }, events ++ [.persist cfg])
  else (st2, events)

/-- `BrightnessControlWindow.set_link_mode` (ui.py lines 1520–1534); the
link-button UI sync and `_update_link_mode_ui` have no modelled state. -/
def set_link_mode (st : TrayState) (linked persist apply_link_brightness : Bool) :
    TrayState × List AppEvent :=
  let st1 := { st with config := { st.config with link_mode := linked } }
  if linked ∧ apply_link_brightness then
    let r := apply_brightness_to_all st1 st1.global_slider persist
    (r.1, .setLinkModeCall linked :: r.2)
  else if persist then (st1, [.setLinkModeCall linked, .persist st1.config])
  else (st1, [.setLinkModeCall linked])

/-- The row loop of `BrightnessControlWindow.apply_brightness_map`:
returns the updated rows, the updated `monitor_levels`, the
`set_brightness` events and the `applied` list, in row order. -/
def apply_map_rows (values : List (String × Int)) (levels : List (String × Int)) :
    List MonitorRow → List MonitorRow × List (String × Int) × List AppEvent × List Int
  | [] => ([], levels, [], [])
  | row :: rest =>
    match alLookup values row.key with
    | none =>
      let r := apply_map_rows values levels rest
      (row :: r.1, r.2.1, r.2.2.1, r.2.2.2)
    | some v =>
      let level := clamp_brightness_int v
      let r := apply_map_rows values (alInsert levels row.key level) rest
      ({ row with value := level } :: r.1, r.2.1,
       .setBrightness row.key level :: r.2.2.1, level :: r.2.2.2)

/-- `BrightnessControlWindow.apply_brightness_map` (ui.py lines 1494–1512). -/
def apply_brightness_map (st : TrayState) (values : List (String × Int)) (persist : Bool) :
    TrayState × List AppEvent :=
  let r := apply_map_rows values st.config.monitor_levels st.rows
  let applied := r.2.2.2
  let st1 := { st with rows := r.1, config := { st.config with monitor_levels := r.2.1 } }
  if applied = [] then (st, [])
  else
    let average_level := pyRound (((applied.foldl (· + ·) 0 : Int) : ℚ) / (applied.length : ℚ))
    let st2 := { st1 with config :=
      { st1.config with last_global_brightness := clamp_brightness_int average_level } }
    let st3 := set_global_slider_value st2 average_level
    if persist then (st3, r.2.2.1 ++ [.persist st3.config])
    else (st3, r.2.2.1)

/-- `BrightnessControlWindow.apply_schedule_targets`. -/
def apply_schedule_targets (st : TrayState) (targets : List (String × Int)) (persist : Bool) :
    TrayState × List AppEvent :=
  apply_brightness_map st targets persist

/-- `TrayController._rules_for_display_index`. -/
def rules_for_display_index (schedule : ScheduleSettings) (display_index : Nat) :
    List ScheduleRule :=
  let allowed : RuleTarget → Bool :=
    if display_index = 0 then fun t => t = .display1 ∨ t = .both
    else if display_index = 1 then fun t => t = .display2 ∨ t = .both
    else fun t => t = .both
  schedule.rules.filter (fun rule => allowed rule.target)

/-- The `enumerate(monitor_rows)` loop of
`TrayController._calculate_schedule_targets`: a row contributes iff its
scoped rules are nonempty and the engine returns a value. -/
def calculate_targets_from (env : SunEnv) (st : TrayState) (now : ℚ) :
    Nat → List MonitorRow → List (String × Int)
  | _, [] => []
  | display_index, row :: rest =>
    let scoped_rules := rules_for_display_index st.config.schedule display_index
    let tail := calculate_targets_from env st now (display_index + 1) rest
    if scoped_rules = [] then tail
    else
      match target_brightness env st.config.schedule (some scoped_rules) now with
      | none => tail
      | some value => (row.key, value) :: tail

/-- `TrayController._calculate_schedule_targets`. -/
def calculate_schedule_targets (env : SunEnv) (st : TrayState) (now : ℚ) :
    List (String × Int) :=
  calculate_targets_from env st now 0 st.rows

/-- `TrayController._format_target_summary`. -/
def format_target_summary (st : TrayState) (targets : List (String × Int)) : String :=
  String.intercalate ", " (st.rows.enum.filterMap (fun p =>
    (alLookup targets p.2.key).map (fun value =>
      "D" ++ toString (p.1 + 1) ++ " " ++ toString value ++ "%")))

/-- `TrayController._has_link_mode_conflict` (app.py lines 196–203): at
least two active displays have a target and not all targets coincide
(`len(set(active_values)) > 1` is `eraseDups.length > 1`). -/
def has_link_mode_conflict (st : TrayState) (targets : List (String × Int)) : Bool :=
  let active_values := st.rows.filterMap (fun row => alLookup targets row.key)
  2 ≤ active_values.length ∧ 1 < active_values.eraseDups.length

/-- `TrayController._schedule_has_sun_rules`. -/
def schedule_has_sun_rules (st : TrayState) : Bool :=
  uses_sun_events st.config.schedule.rules

/-- `TrayController._resolve_location_if_needed` (app.py lines 140–161);
`detect_location_from_ip` is the external oracle `env.detectLocation` and
`0.0001` is `1/10000`. -/
def resolve_location_if_needed (env : SunEnv) (st : TrayState) :
    TrayState × List AppEvent :=
  if ¬st.config.schedule.enabled then (st, [])
  else if ¬schedule_has_sun_rules st then (st, [])
  else
    match env.detectLocation with
    | none => (st, [])
    | some (latitude, longitude) =>
      let unchanged : Bool :=
        match st.config.schedule.latitude, st.config.schedule.longitude with
        | some la, some lo =>
          decide (|la - latitude| < 1 / 10000) && decide (|lo - longitude| < 1 / 10000)
        | _, _ => false
      if unchanged then (st, [])
      else
        let cfg := { st.config with schedule :=
          { st.config.schedule with latitude := some latitude, longitude := some longitude } }
        ({ st with config := cfg }, [.persist cfg])

/-- `TrayController._update_schedule_now` (app.py lines 205–250). -/
def update_schedule_now (env : SunEnv) (now : ℚ) (st : TrayState) (force_apply : Bool) :
    TrayState × List AppEvent :=
  if st.config.ambient_auto_enabled then
    let st1 :=
      if st.config.schedule.enabled then
        { st with schedule_status := "Schedule: paused (Auto Light is active)." }
      else st
    ({ st1 with expected_auto_targets := [] }, [])
  else if ¬st.config.schedule.enabled then
    ({ st with schedule_status := "Schedule: off", expected_auto_targets := [] }, [])
  else
    let locStep :=
      if schedule_has_sun_rules st ∧
          (st.config.schedule.latitude = none ∨ st.config.schedule.longitude = none) then
        resolve_location_if_needed env st
      else (st, [])
    let st1 := locStep.1
    let targets := calculate_schedule_targets env st1 now
    if targets = [] then
      let status :=
        if schedule_has_sun_rules st1 ∧
            (st1.config.schedule.latitude = none ∨ st1.config.schedule.longitude = none) then
          "Schedule: waiting for location fix."
        else "Schedule: enabled, but no valid rule target for connected displays."
      ({ st1 with schedule_status := status }, locStep.2)
    else
      let target_text := format_target_summary st1 targets
      let linkStep :=
        if st1.config.link_mode ∧ has_link_mode_conflict st1 targets then
          set_link_mode st1 false true false
        else (st1, [])
      let st2 := linkStep.1
      if ¬force_apply ∧ pyDictEq targets st2.expected_auto_targets then
        ({ st2 with schedule_status := "Schedule: active (" ++ target_text ++ ")" },
         locStep.2 ++ linkStep.2)
      else
        let applyStep := apply_schedule_targets st2 targets true
        ({ applyStep.1 with
            expected_auto_targets := targets,
            schedule_status := "Schedule: active (" ++ target_text ++ ")" },
         locStep.2 ++ linkStep.2 ++ applyStep.2)

/-- Run a fallible step over a list, propagating the first failure
(models a Python loop whose body may raise). -/
def optionMapM (f : α → Option β) : List α → Option (List β)
  | [] => some []
  | a :: rest =>
    match f a with
    | none => none
    | some b => (optionMapM f rest).map (b :: ·)

/-- A JSON value, as produced by `json.dumps`/`json.loads`.  Objects keep
their fields in insertion order, so two payloads serialise to the same bytes
iff they are equal as `JValue`s. -/
inductive JValue
  | null
  | bool (b : Bool)
  | int (n : Int)
  | float (q : ℚ)
  | str (s : String)
  | arr (items : List JValue)
  | obj (fields : List (String × JValue))
deriving Repr

/-- The keys of a JSON object (empty for non-objects). -/
def jKeys : JValue → List String
  | .obj fields => fields.map Prod.fst
  | _ => []

/-- Python `dict.get(key, default)` on a JSON object's field list. -/
def jGetD (fields : List (String × JValue)) (k : String) (dflt : JValue) : JValue :=
  match fields with
  | [] => dflt
  | p :: rest => if p.1 = k then p.2 else jGetD rest k dflt

/-- Python `bool(x)` on a JSON value. -/
def pyBool : JValue → Bool
  | .null => false
  | .bool b => b
  | .int n => n ≠ 0
  | .float q => q ≠ 0
  | .str s => s ≠ ""
  | .arr items => !items.isEmpty
  | .obj fields => !fields.isEmpty

/-- Python `str(x)` on a JSON value.  Exact for the variants the config
store can meet on its own saved payloads (strings; and `None`/`True`/`False`
/ints via `repr`); the `repr` of floats, lists and dicts is approximated —
no such repr matches an anchor/target keyword or the `HH:MM` pattern, which
is all the parser does with these strings. -/
def pyStr : JValue → String
  | .str s => s
  | .null => "None"
  | .bool true => "True"
  | .bool false => "False"
  | .int n => toString n
  | .float q => toString q
  | .arr _ => "[...]"
  | .obj _ => "{...}"

/-- Python `int(x)` on a JSON value (`None` models the `TypeError` /
`ValueError` raise). -/
def pyIntCoe : JValue → Option Int
  | .int n => some n
  | .bool b => some (if b then 1 else 0)
  | .float q => some (Int.sign q.num * (q.num.natAbs / q.den : Nat))
  | .str s => pyIntOfString s
  | _ => none

/-- `models.clamp_brightness` applied to a JSON value (as in
`ConfigStore._parse` / `_parse_rules`); `none` models the uncaught
`TypeError` that `round` raises on non-numbers. -/
def pyClampJ : JValue → Option Int
  | .int n => some (clamp_brightness_int n)
  | .bool b => some (clamp_brightness_int (if b then 1 else 0))
  | .float q => some (clamp_brightness q)
  | _ => none

/-- `ConfigStore._optional_float`.  String inputs (which Python would parse
as decimal floats) never occur in saved payloads — latitude/longitude are
stored as numbers or `null` — and are modelled as the `except` branch. -/
def optional_float : JValue → Option ℚ
  | .null => none
  | .float q => some q
  | .int n => some (n : ℚ)
  | .bool b => some (if b then 1 else 0)
  | _ => none

/-- `f"{n:02d}"` for a natural number. -/
def pad2 (n : Nat) : String :=
  if n < 10 then "0" ++ toString n else toString n

/-- `ConfigStore._normalize_time_text`: `str(value or "")`, strip, match
`\d{1,2}:\d{2}`, range-check, reformat zero-padded. -/
def normalize_time_text (value : JValue) : Option String :=
  let text := pyStrip (pyStr (if pyBool value then value else .str ""))
  let hm : Option (Nat × Nat) :=
    match text.toList with
    | [a, ':', c, d] =>
      if a.isDigit ∧ c.isDigit ∧ d.isDigit then
        some (a.toNat - 48, (c.toNat - 48) * 10 + (d.toNat - 48))
      else none
    | [a, b, ':', c, d] =>
      if a.isDigit ∧ b.isDigit ∧ c.isDigit ∧ d.isDigit then
        some ((a.toNat - 48) * 10 + (b.toNat - 48), (c.toNat - 48) * 10 + (d.toNat - 48))
      else none
    | _ => none
  match hm with
  | none => none
  | some (hour, minute) =>
    if 23 < hour ∨ 59 < minute then none
    else some (pad2 hour ++ ":" ++ pad2 minute)

/-- The JSON text of a `ScheduleRule` anchor. -/
def anchor_str : AnchorType → String
  | .sunrise => "sunrise"
  | .sunset => "sunset"
  | .time => "time"

/-- The JSON text of a `ScheduleRule` target. -/
def target_str : RuleTarget → String
  | .display1 => "display1"
  | .display2 => "display2"
  | .both => "both"

/-- An optional string as a JSON value. -/
def jOptStr : Option String → JValue
  | none => .null
  | some s => .str s

/-- An optional float as a JSON value. -/
def jOptFloat : Option ℚ → JValue
  | none => .null
  | some q => .float q

/-- The rule dict built by `ConfigStore.save`. -/
def save_rule (rule : ScheduleRule) : JValue :=
  .obj [("anchor", .str (anchor_str rule.anchor)),
        ("offset_minutes", .int rule.offset_minutes),
        ("brightness", .int (clamp_brightness_int rule.brightness)),
        ("target", .str (target_str rule.target)),
        ("specific_time", jOptStr rule.specific_time)]

/-- The payload written by `ConfigStore.save` (config_store.py lines
48–77).  Note: the payload has no `theme` field. -/
def save_config (config : AppConfig) : JValue :=
  .obj [("version", .int config.version),
        ("link_mode", .bool config.link_mode),
        ("ambient_auto_enabled", .bool config.ambient_auto_enabled),
        ("last_global_brightness", .int (clamp_brightness_int config.last_global_brightness)),
        ("monitor_levels",
          .obj (config.monitor_levels.map (fun p => (p.1, .int (clamp_brightness_int p.2))))),
        ("startup_enabled", .bool config.startup_enabled),
        ("schedule", .obj
          [("enabled", .bool config.schedule.enabled),
           ("gradual", .bool config.schedule.gradual),
           ("auto_location", .bool config.schedule.auto_location),
           ("latitude", jOptFloat config.schedule.latitude),
           ("longitude", jOptFloat config.schedule.longitude),
           ("rules", .arr (config.schedule.rules.map save_rule))])]

/-- One iteration of the `ConfigStore._parse_rules` loop: `none` is an
uncaught raise, `some none` a skipped element (`continue`), `some (some r)`
a parsed rule. -/
def parse_rule_item (raw : JValue) : Option (Option ScheduleRule) :=
  match raw with
  | .obj fields =>
    let anchor_text := pyLower (pyStrip (pyStr (jGetD fields "anchor" (.str ""))))
    if ¬(anchor_text = "sunrise" ∨ anchor_text = "sunset" ∨ anchor_text = "time") then
      some none
    else
      let anchor : AnchorType :=
        if anchor_text = "sunrise" then .sunrise
        else if anchor_text = "sunset" then .sunset
        else .time
      let offset_raw : Int :=
        match pyIntCoe (jGetD fields "offset_minutes" (.int 0)) with
        | some n => n
        | none => 0
      let offset_clamped := max (-1440) (min 1440 offset_raw)
      let target_text := pyLower (pyStrip (pyStr (jGetD fields "target" (.str "both"))))
      let target : RuleTarget :=
        if target_text = "display1" then .display1
        else if target_text = "display2" then .display2
        else .both
      let st_off : Option (Option String × Int) :=
        if anchor = .time then
          match normalize_time_text (jGetD fields "specific_time" .null) with
          | none => none
          | some t => some (some t, 0)
        else some (none, offset_clamped)
      match st_off with
      | none => some none
      | some (specific_time, offset_minutes) =>
        match pyClampJ (jGetD fields "brightness" (.int 100)) with
        | none => none
        | some brightness =>
          some (some ⟨anchor, offset_minutes, brightness, target, specific_time⟩)
  | _ => some none

/-- `ConfigStore._parse_rules`. -/
def parse_rules (raw : JValue) : Option (List ScheduleRule) :=
  match raw with
  | .arr items =>
    match optionMapM parse_rule_item items with
    | none => none
    | some outcomes =>
      let parsed := outcomes.filterMap id
      if parsed = [] then some default_schedule_rules else some parsed
  | _ => some default_schedule_rules

/-- `ConfigStore._parse` (config_store.py lines 79–107): `none` models an
uncaught raise.  The `theme` field of `AppConfig()` is never read from the
payload and stays the default. -/
def parse_config (data : JValue) : Option AppConfig :=
  match data with
  | .obj fields =>
    match pyIntCoe (jGetD fields "version" (.int 1)) with
    | none => none
    | some version =>
      let link_mode := pyBool (jGetD fields "link_mode" (.bool true))
      let ambient_auto_enabled := pyBool (jGetD fields "ambient_auto_enabled" (.bool false))
      match pyClampJ (jGetD fields "last_global_brightness" (.int 100)) with
      | none => none
      | some last_global_brightness =>
        let startup_enabled := pyBool (jGetD fields "startup_enabled" (.bool true))
        let monitor_levels? : Option (List (String × Int)) :=
          match jGetD fields "monitor_levels" (.obj []) with
          | .obj ms => optionMapM (fun p => (pyClampJ p.2).map (fun v => (p.1, v))) ms
          | _ => some []
        match monitor_levels? with
        | none => none
        | some monitor_levels =>
          let schedule? : Option ScheduleSettings :=
            match jGetD fields "schedule" (.obj []) with
            | .obj sf =>
              match parse_rules (jGetD sf "rules" .null) with
              | none => none
              | some rules =>
                some { enabled := pyBool (jGetD sf "enabled" (.bool false)),
                       gradual := pyBool (jGetD sf "gradual" (.bool true)),
                       auto_location := pyBool (jGetD sf "auto_location" (.bool true)),
                       latitude := optional_float (jGetD sf "latitude" .null),
                       longitude := optional_float (jGetD sf "longitude" .null),
                       rules := rules }
            | _ => some defaultScheduleSettings
          match schedule? with
          | none => none
          | some schedule =>
            some { version := version, theme := "dark", link_mode := link_mode,
                   ambient_auto_enabled := ambient_auto_enabled,
                   last_global_brightness := last_global_brightness,
                   monitor_levels := monitor_levels,
                   startup_enabled := startup_enabled, schedule := schedule }
  | _ => none

/-- Well-formedness of a rule in the sense of the data model: ranges
respected, `specific_time` present iff the anchor is a fixed time,
`offset_minutes` forced to 0 for fixed times, and a fixed time is a
normalised zero-padded `HH:MM` string (a fixed point of the store's
normaliser). -/
def RuleWF (r : ScheduleRule) : Bool :=
  decide (-1440 ≤ r.offset_minutes) && decide (r.offset_minutes ≤ 1440) &&
  decide (0 ≤ r.brightness) && decide (r.brightness ≤ 100) &&
  (if r.anchor = .time then decide (r.offset_minutes = 0) else true) &&
  (match r.anchor, r.specific_time with
   | .time, some t => decide (normalize_time_text (.str t) = some t)
   | .time, none => false
   | _, none => true
   | _, some _ => false)

/-- Well-formedness of a whole config in the sense of the data model. -/
def ConfigWF (c : AppConfig) : Bool :=
  decide (0 ≤ c.last_global_brightness) && decide (c.last_global_brightness ≤ 100) &&
  c.monitor_levels.all (fun p => decide (0 ≤ p.2) && decide (p.2 ≤ 100)) &&
  c.schedule.rules.all RuleWF

/-- Test fixture: sun events resolve only on day 0, at instants 600 and
840; no IP location. -/
def dayZeroEnv : SunEnv :=
  ⟨fun d _ _ => if d = 0 then some (600, 840) else none, none⟩

/-- Test fixture: an enabled step-mode (`gradual = false`) schedule with a
sunrise rule of brightness 30 and a sunset rule of brightness 80. -/
def stepSched : ScheduleSettings :=
  ⟨true, false, true, some 10, some 20,
   [⟨.sunrise, 0, 30, .both, none⟩, ⟨.sunset, 0, 80, .both, none⟩]⟩

/-- Test fixture: an enabled gradual schedule whose two resolved points are
`(600, 10)` and `(840, 90)`. -/
def gradualSched : ScheduleSettings :=
  ⟨true, true, true, some 10, some 20,
   [⟨.sunrise, 0, 10, .both, none⟩, ⟨.sunset, 0, 90, .both, none⟩]⟩

/-- Whether an event is an entry into `set_link_mode`. -/
def isLinkModeEvent : AppEvent → Bool
  | .setLinkModeCall _ => true
  | _ => false

/-- Whether an event is a brightness application to a display. -/
def isSetBrightnessEvent : AppEvent → Bool
  | .setBrightness _ _ => true
  | _ => false

/-- Test fixture: two linked displays at level 0, schedule enabled in step
mode with a display1 rule of brightness 40 and a display2 rule of
brightness 60 (both sunrise-anchored), location set. -/
def conflictState : TrayState :=
  ⟨{ defaultAppConfig with schedule :=
      ⟨true, false, true, some 10, some 20,
       [⟨.sunrise, 0, 40, .display1, none⟩, ⟨.sunrise, 0, 60, .display2, none⟩]⟩ },
   [⟨"A", 0⟩, ⟨"B", 0⟩], 50, [], ""⟩

/-- Test fixture: two monitors at levels 10 and 90, global slider at 50,
linked mode off in no way relevant here. -/
def unevenState : TrayState :=
  ⟨{ defaultAppConfig with monitor_levels := [("A", 10), ("B", 90)] },
   [⟨"A", 10⟩, ⟨"B", 90⟩], 50, [], ""⟩

/-- Test fixture: the default config with the light theme selected. -/
def lightConfig : AppConfig :=
  { defaultAppConfig with theme := "light" }

/-- Test fixture: a well-formed config whose schedule has no rules. -/
def emptyRulesConfig : AppConfig :=
  { defaultAppConfig with schedule := { defaultScheduleSettings with rules := [] } }

/-- The number of schedule rules recorded in a saved payload. -/
def schedule_rules_count (v : JValue) : Nat :=
  match v with
  | .obj fields =>
    match jGetD fields "schedule" .null with
    | .obj sf =>
      match jGetD sf "rules" .null with
      | .arr items => items.length
      | _ => 0
    | _ => 0
  | _ => 0

/-- Test fixture: a well-formed config with one fixed-time rule and one
sunset rule, one stored monitor level, and a latitude. -/
def roundtripConfig : AppConfig :=
  ⟨2, "light", false, true, 70, [("M1", 55)], false,
   ⟨true, false, false, some (47 : ℚ), none,
    [⟨.time, 0, 25, .display1, some "07:30"⟩, ⟨.sunset, 90, 80, .both, none⟩]⟩⟩

theorem ambient_iter_closed : ∀ n : Nat, ambient_iter 80 50 n = min (50 + 4 * (n : Int)) 80
  | 0 => by simp [ambient_iter]
  | n + 1 => by
    have ih := ambient_iter_closed n
    rw [ambient_iter, ambient_tick, ih]
    set c : Int := min (50 + 4 * (n : Int)) 80 with hc
    by_cases h : (80 - c).natAbs < 2
    · simp only [ambient_next_level, h, if_true, Option.getD_none]
      push_cast
      omega
    · simp only [ambient_next_level, h, if_false, Option.getD_some, clamp_brightness_int]
      push_cast
      omega

/-- C5: the ambient step-limiter with `lastApplied` set suppresses any
change smaller than the deadband of 2 (no level emitted, state unchanged),
otherwise applies `lastApplied` plus the delta clamped to ±4; from
`lastApplied = 50` and `desired = 80` one tick yields 54, and repeated
ticks with fixed desired 80 increase monotonically, never exceed 80, and
reach 80 (at tick 8). -/
theorem ambient_step_limiter_spec :
    (∀ last desired : Int, (desired - last).natAbs < 2 →
        ambient_next_level (some last) desired = none ∧
        ambient_tick desired last = last) ∧
    (∀ last desired : Int, ¬(desired - last).natAbs < 2 →
        ambient_next_level (some last) desired
          = some (clamp_brightness_int (last + max (-4) (min 4 (desired - last))))) ∧
    ambient_next_level (some 50) 80 = some 54 ∧
    (∀ n : Nat, ambient_iter 80 50 n ≤ ambient_iter 80 50 (n + 1)) ∧
    (∀ n : Nat, ambient_iter 80 50 n ≤ 80) ∧
    ambient_iter 80 50 8 = 80 := by
  refine ⟨?_, ?_, by decide, ?_, ?_, ?_⟩
  · intro last desired h
    simp [ambient_next_level, ambient_tick, h]
  · intro last desired h
    simp [ambient_next_level, h]
  · intro n
    rw [ambient_iter_closed n, ambient_iter_closed (n + 1)]
    push_cast
    omega
  · intro n
    rw [ambient_iter_closed n]
    omega
  · rw [ambient_iter_closed 8]
    decide

/-- C5 witness: deadband at `lastApplied = 50`, `desired = 51` emits no
change; one tick from 50 toward 80 applies 54. -/
theorem ambient_step_limiter_spec_witness :
    (ambient_next_level (some 50) 51 = none ∧ ambient_tick 51 50 = 50) ∧
    ambient_next_level (some 50) 80 = some 54 := by
  refine ⟨ambient_step_limiter_spec.1 50 51 (by decide), ambient_step_limiter_spec.2.2.1⟩

theorem fold_latest_eq (outcomes : List (Option ℚ)) :
    ∀ init : Option ℚ,
      outcomes.foldl (fun acc o => match o with | some w => some w | none => acc) init =
        match last_success outcomes with
        | some v => some v
        | none => init := by
  induction outcomes with
  | nil => intro init; rfl
  | cons o rest ih =>
    intro init
    cases o with
    | some v =>
      show rest.foldl _ (some v) = _
      have h1 : last_success (some v :: rest)
          = rest.foldl (fun acc o => match o with | some w => some w | none => acc) (some v) := rfl
      rw [h1, ih (some v)]
      cases last_success rest <;> rfl
    | none =>
      show rest.foldl _ init = _
      have h1 : last_success (none :: rest) = last_success rest := rfl
      rw [h1, ih init]

theorem poll_step_none_latest (s : SensorState) :
    (poll_step s none).latest_lux = s.latest_lux := by
  show (if s.latest_lux = none then _ else s).latest_lux = s.latest_lux
  split <;> rfl

theorem poll_run_latest (outcomes : List (Option ℚ)) :
    ∀ s : SensorState,
      latest_lux (poll_run s outcomes) =
        match last_success outcomes with
        | some v => some v
        | none => s.latest_lux := by
  induction outcomes with
  | nil => intro s; rfl
  | cons o rest ih =>
    intro s
    have hstep : poll_run s (o :: rest) = poll_run (poll_step s o) rest := rfl
    rw [hstep, ih (poll_step s o)]
    cases o with
    | some v =>
      have h1 : last_success (some v :: rest)
          = rest.foldl (fun acc o => match o with | some w => some w | none => acc) (some v) := rfl
      rw [h1, fold_latest_eq rest (some v)]
      cases last_success rest <;> rfl
    | none =>
      have h1 : last_success (none :: rest) = last_success rest := rfl
      rw [h1, poll_step_none_latest s]

/-- C10: the ambient sensor worker never clears or replaces a stored
successful reading on a failed poll (a failed poll leaves the state
untouched once a reading exists); after any sequence of polls the reader
sees the most recent successful sample, or the prior value (`none` if no
poll ever succeeded); and every value `_query_lux` returns is
non-negative, raw negative readings being reported as `0.0`. -/
theorem ambient_sensor_latest_spec :
    (∀ (s : SensorState) (v : ℚ), s.latest_lux = some v → poll_step s none = s) ∧
    (∀ (s : SensorState) (outcomes : List (Option ℚ)),
        latest_lux (poll_run s outcomes) =
          match last_success outcomes with
          | some v => some v
          | none => s.latest_lux) ∧
    (∀ (s : SensorState) (v : ℚ) (outcomes : List (Option ℚ)),
        s.latest_lux = some v → ∃ w, latest_lux (poll_run s outcomes) = some w) ∧
    (∀ (raw : Option ℚ) (v : ℚ), query_result raw = some v → 0 ≤ v) ∧
    (∀ l : ℚ, l < 0 → query_result (some l) = some 0) := by
  refine ⟨?_, fun s outcomes => poll_run_latest outcomes s, ?_, ?_, ?_⟩
  · intro s v h
    show (if s.latest_lux = none then _ else s) = s
    rw [if_neg (by rw [h]; exact fun hc => Option.noConfusion hc)]
  · intro s v outcomes h
    rw [poll_run_latest outcomes s]
    cases hls : last_success outcomes with
    | some w => exact ⟨w, rfl⟩
    | none => exact ⟨v, h⟩
  · intro raw v h
    cases raw with
    | none => exact absurd h (by simp [query_result])
    | some l =>
      simp only [query_result, Option.map_some] at h
      rw [← Option.some_inj.mp h]
      by_cases hl : l < 0
      · simp [hl]
      · simp [hl]
        exact le_of_not_lt hl
  · intro l h
    simp [query_result, h]

/-- C10 witness: a stored reading of 5 lux survives a failed poll and two
failed polls in a row; a query outcome of 3 lux is non-negative; a raw
reading of −2 lux is reported as 0. -/
theorem ambient_sensor_latest_spec_witness :
    poll_step ⟨some 5, none⟩ none = ⟨some 5, none⟩ ∧
    (∃ w, latest_lux (poll_run ⟨some 5, none⟩ [none, none]) = some w) ∧
    (0 : ℚ) ≤ 3 ∧
    query_result (some (-2)) = some 0 :=
  ⟨ambient_sensor_latest_spec.1 ⟨some 5, none⟩ 5 rfl,
   ambient_sensor_latest_spec.2.2.1 ⟨some 5, none⟩ 5 [none, none] rfl,
   ambient_sensor_latest_spec.2.2.2.1 (some 3) 3 (by norm_num [query_result]),
   ambient_sensor_latest_spec.2.2.2.2 (-2) (by norm_num)⟩

theorem selection_loop_spec (now : ℚ) :
    ∀ (pts : List SchedulePoint) (prev foll : SchedulePoint),
      selection_loop now pts prev foll =
        ((pts.takeWhile (fun p => decide (p.1 ≤ now))).getLastD prev,
         (pts.dropWhile (fun p => decide (p.1 ≤ now))).headD foll) := by
  intro pts
  induction pts with
  | nil => intro prev foll; rfl
  | cons p rest ih =>
    intro prev foll
    by_cases h : p.1 ≤ now
    · rw [show selection_loop now (p :: rest) prev foll = selection_loop now rest p foll from by
        simp [selection_loop, h]]
      rw [ih p foll, List.takeWhile_cons, List.dropWhile_cons,
        if_pos (decide_eq_true h), if_pos (decide_eq_true h), List.getLastD_cons]
    · rw [show selection_loop now (p :: rest) prev foll = (prev, p) from by
        simp [selection_loop, h]]
      rw [List.takeWhile_cons, List.dropWhile_cons,
        if_neg (by simp [h]), if_neg (by simp [h])]
      rfl

theorem mem_insertPoint {b p : SchedulePoint} :
    ∀ {l : List SchedulePoint}, b ∈ insertPoint p l → b = p ∨ b ∈ l := by
  intro l
  induction l with
  | nil => intro h; simp [insertPoint] at h; exact Or.inl h
  | cons q rest ih =>
    intro h
    rw [insertPoint] at h
    by_cases hq : q.1 ≤ p.1
    · rw [if_pos hq] at h
      rcases List.mem_cons.mp h with h1 | h1
      · exact Or.inr (List.mem_cons.mpr (Or.inl h1))
      · rcases ih h1 with h2 | h2
        · exact Or.inl h2
        · exact Or.inr (List.mem_cons.mpr (Or.inr h2))
    · rw [if_neg hq] at h
      rcases List.mem_cons.mp h with h1 | h1
      · exact Or.inl h1
      · exact Or.inr h1

theorem insertPoint_sorted (p : SchedulePoint) :
    ∀ l : List SchedulePoint,
      List.Sorted (fun a b : SchedulePoint => a.1 ≤ b.1) l →
      List.Sorted (fun a b : SchedulePoint => a.1 ≤ b.1) (insertPoint p l) := by
  intro l
  induction l with
  | nil => intro _; simp [insertPoint]
  | cons q rest ih =>
    intro h
    rcases List.sorted_cons.mp h with ⟨hall, hrest⟩
    rw [insertPoint]
    by_cases hq : q.1 ≤ p.1
    · rw [if_pos hq]
      refine List.sorted_cons.mpr ⟨?_, ih hrest⟩
      intro b hb
      rcases mem_insertPoint hb with h1 | h1
      · rw [h1]; exact hq
      · exact hall b h1
    · rw [if_neg hq]
      refine List.sorted_cons.mpr ⟨?_, h⟩
      intro b hb
      rcases List.mem_cons.mp hb with h1 | h1
      · rw [h1]; exact le_of_lt (lt_of_not_le hq)
      · exact le_trans (le_of_lt (lt_of_not_le hq)) (hall b h1)

theorem foldl_insertPoint_sorted :
    ∀ (pts acc : List SchedulePoint),
      List.Sorted (fun a b : SchedulePoint => a.1 ≤ b.1) acc →
      List.Sorted (fun a b : SchedulePoint => a.1 ≤ b.1)
        (pts.foldl (fun acc p => insertPoint p acc) acc) := by
  intro pts
  induction pts with
  | nil => intro acc h; exact h
  | cons p rest ih =>
    intro acc h
    rw [List.foldl_cons]
    exact ih (insertPoint p acc) (insertPoint_sorted p acc h)

theorem sortPoints_sorted (points : List SchedulePoint) :
    List.Sorted (fun a b : SchedulePoint => a.1 ≤ b.1) (sortPoints points) :=
  foldl_insertPoint_sorted points [] (by simp)

theorem sorted_takeWhile_dropWhile_filter (now : ℚ) :
    ∀ l : List SchedulePoint,
      List.Sorted (fun a b : SchedulePoint => a.1 ≤ b.1) l →
      l.takeWhile (fun p => decide (p.1 ≤ now)) = l.filter (fun p => decide (p.1 ≤ now)) ∧
      l.dropWhile (fun p => decide (p.1 ≤ now)) = l.filter (fun p => !decide (p.1 ≤ now)) := by
  intro l
  induction l with
  | nil => intro _; simp
  | cons q rest ih =>
    intro h
    rcases List.sorted_cons.mp h with ⟨hall, hrest⟩
    rcases ih hrest with ⟨iht, ihd⟩
    by_cases hq : q.1 ≤ now
    · constructor
      · rw [List.takeWhile_cons, List.filter_cons,
          if_pos (decide_eq_true hq), if_pos (decide_eq_true hq), iht]
      · rw [List.dropWhile_cons, List.filter_cons,
          if_pos (decide_eq_true hq), if_neg (by simp [hq]), ihd]
    · have hall2 : ∀ b ∈ rest, ¬b.1 ≤ now := fun b hb hle => hq (le_trans (hall b hb) hle)
      constructor
      · rw [List.takeWhile_cons, List.filter_cons,
          if_neg (by simp [hq]), if_neg (by simp [hq])]
        symm
        rw [List.filter_eq_nil_iff]
        intro b hb
        simp only [decide_eq_true_eq]
        exact hall2 b hb
      · rw [List.dropWhile_cons, List.filter_cons,
          if_neg (by simp [hq]), if_pos (by simp [hq])]
        rw [show rest.filter (fun p => !decide (p.1 ≤ now)) = rest from
          List.filter_eq_self.mpr (fun b hb => by
            simp only [Bool.not_eq_true', decide_eq_false_iff_not]
            exact hall2 b hb)]

theorem pyRound_intCast (n : Int) : pyRound (n : ℚ) = n := by
  unfold pyRound
  rw [Int.floor_intCast]
  norm_num

theorem clamp_brightness_intCast (n : Int) :
    clamp_brightness (n : ℚ) = clamp_brightness_int n := by
  unfold clamp_brightness clamp_brightness_int
  rw [pyRound_intCast]

theorem clamp_brightness_int_bounds (n : Int) :
    0 ≤ clamp_brightness_int n ∧ clamp_brightness_int n ≤ 100 := by
  unfold clamp_brightness_int
  omega

theorem clamp_brightness_int_of_range {n : Int} (h0 : 0 ≤ n) (h1 : n ≤ 100) :
    clamp_brightness_int n = n := by
  unfold clamp_brightness_int
  omega

theorem clamp_brightness_bounds (q : ℚ) :
    0 ≤ clamp_brightness q ∧ clamp_brightness q ≤ 100 := by
  unfold clamp_brightness
  omega

/-- C1: whenever the evaluator reaches its point list (`enabled`, active
rules nonempty, no missing-location bailout, at least one point), the list
it selects from is sorted ascending by instant; `previous` is the last
point with `instant ≤ now`, defaulting to the first point, and `following`
is the first point with `instant > now`, defaulting to the last point; and
with `gradual = false` the result is exactly `previous.brightness`. -/
theorem schedule_step_mode_spec
    (env : SunEnv) (schedule : ScheduleSettings) (rules? : Option (List ScheduleRule))
    (now : ℚ) (active : List ScheduleRule) (points sorted : List SchedulePoint)
    (hactive : active = rules?.getD schedule.rules)
    (hpoints : points = schedule_points env schedule active now)
    (hsorted : sorted = sortPoints points)
    (henabled : schedule.enabled = true)
    (hne : ¬active = [])
    (hloc : ¬(uses_sun_events active = true ∧
        (schedule.latitude = none ∨ schedule.longitude = none)))
    (hpts : ¬points = [])
    (hgradual : schedule.gradual = false) :
    List.Sorted (fun a b : SchedulePoint => a.1 ≤ b.1) sorted ∧
    selection_loop now sorted (sorted.headD (0, 0)) (sorted.getLastD (0, 0)) =
      ((sorted.filter (fun p => decide (p.1 ≤ now))).getLastD (sorted.headD (0, 0)),
       (sorted.filter (fun p => !decide (p.1 ≤ now))).headD (sorted.getLastD (0, 0))) ∧
    target_brightness env schedule rules? now =
      some ((sorted.filter (fun p => decide (p.1 ≤ now))).getLastD (sorted.headD (0, 0))).2 := by
  have hs : List.Sorted (fun a b : SchedulePoint => a.1 ≤ b.1) sorted :=
    hsorted ▸ sortPoints_sorted points
  have hfil := sorted_takeWhile_dropWhile_filter now sorted hs
  have hsel := selection_loop_spec now sorted (sorted.headD (0, 0)) (sorted.getLastD (0, 0))
  rw [hfil.1, hfil.2] at hsel
  refine ⟨hs, hsel, ?_⟩
  rw [target_brightness]
  rw [if_neg (by simp [henabled])]
  simp only [← hactive, ← hpoints, ← hsorted]
  rw [if_neg hne, if_neg hloc, if_neg hpts, if_pos (by simp [hgradual]), hsel]

/-- C1 witness: with sun events (600, 840) on day 0 only, brightness 30 at
sunrise and 80 at sunset, `gradual = false` and `now = 700`, the evaluator
returns the most recent past point's brightness, 30. -/
theorem schedule_step_mode_spec_witness :
    target_brightness dayZeroEnv stepSched none 700 = some 30 := by
  have hpoints : [((600 : ℚ), (30 : Int)), (840, 80)]
      = schedule_points dayZeroEnv stepSched stepSched.rules 700 := by
    norm_num +decide [schedule_points, day_points, dayZeroEnv, stepSched, uses_sun_events,
      List.flatMap, List.filterMap_cons, clamp_brightness, pyRound]
  have hsorted : [((600 : ℚ), (30 : Int)), (840, 80)]
      = sortPoints [((600 : ℚ), (30 : Int)), (840, 80)] := by
    norm_num [sortPoints, insertPoint]
  have h := schedule_step_mode_spec dayZeroEnv stepSched none 700 stepSched.rules
    [((600 : ℚ), (30 : Int)), (840, 80)] [((600 : ℚ), (30 : Int)), (840, 80)]
    rfl hpoints hsorted rfl (by simp [stepSched]) (by simp [stepSched])
    (by simp) rfl
  rw [h.2.2]
  norm_num [List.filter, List.getLastD, List.headD]

/-- C2: with `gradual = true` the evaluator interpolates linearly between
`previous` and `following` by the elapsed-time ratio clamped to `[0, 1]`,
rounding and clamping the result to `[0, 100]`; a degenerate window
(`following.instant ≤ previous.instant`) returns `following.brightness`
directly; and on the two points `(600, 10)`, `(840, 90)` with `now = 720`
(the midpoint) the evaluator returns 50. -/
theorem schedule_gradual_interpolation_spec :
    (∀ (now : ℚ) (previous following : SchedulePoint),
        following.1 ≤ previous.1 →
        interpolate now previous following = clamp_brightness (following.2 : ℚ) ∧
        (0 ≤ following.2 → following.2 ≤ 100 →
          interpolate now previous following = following.2)) ∧
    (∀ (now : ℚ) (previous following : SchedulePoint),
        previous.1 < following.1 →
        interpolate now previous following =
          clamp_brightness ((previous.2 : ℚ) +
            ((following.2 : ℚ) - (previous.2 : ℚ)) *
              max 0 (min 1 ((now - previous.1) / (following.1 - previous.1)))) ∧
        0 ≤ interpolate now previous following ∧
        interpolate now previous following ≤ 100) ∧
    target_brightness dayZeroEnv gradualSched none 720 = some 50 := by
  refine ⟨?_, ?_, ?_⟩
  · intro now previous following h
    have he : interpolate now previous following = clamp_brightness (following.2 : ℚ) := by
      rw [interpolate, if_pos h]
    refine ⟨he, ?_⟩
    intro h0 h100
    rw [he, clamp_brightness_intCast, clamp_brightness_int_of_range h0 h100]
  · intro now previous following h
    have he : interpolate now previous following =
        clamp_brightness ((previous.2 : ℚ) +
          ((following.2 : ℚ) - (previous.2 : ℚ)) *
            max 0 (min 1 ((now - previous.1) / (following.1 - previous.1)))) := by
      rw [interpolate, if_neg (not_le.mpr h)]
    exact ⟨he, he ▸ (clamp_brightness_bounds _).1, he ▸ (clamp_brightness_bounds _).2⟩
  · norm_num +decide [target_brightness, dayZeroEnv, gradualSched, schedule_points,
      day_points, uses_sun_events, List.flatMap, sortPoints, insertPoint, selection_loop,
      interpolate, clamp_brightness, pyRound, List.filterMap_cons,
      List.getLastD, List.headD, List.getLast?, List.foldl, List.head?]

/-- C2 witness: a degenerate window returns the following brightness (70)
directly; the evaluator's midpoint example returns 50, a value within
bounds. -/
theorem schedule_gradual_interpolation_spec_witness :
    interpolate 5 (3, 40) (2, 70) = 70 ∧
    0 ≤ interpolate 720 (600, 10) (840, 90) ∧
    target_brightness dayZeroEnv gradualSched none 720 = some 50 :=
  ⟨(schedule_gradual_interpolation_spec.1 5 (3, 40) (2, 70) (by norm_num)).2
      (by norm_num) (by norm_num),
   (schedule_gradual_interpolation_spec.2.1 720 (600, 10) (840, 90) (by norm_num)).2.1,
   schedule_gradual_interpolation_spec.2.2⟩

/-- C3: the evaluator returns `none` exactly when the schedule is
disabled, the active rule list is empty, a sun-anchored rule exists while
latitude or longitude is unset, or no anchor point could be resolved
across the three candidate days. -/
theorem schedule_none_iff_spec (env : SunEnv) (schedule : ScheduleSettings)
    (rules? : Option (List ScheduleRule)) (now : ℚ) :
    target_brightness env schedule rules? now = none ↔
      schedule.enabled = false ∨
      rules?.getD schedule.rules = [] ∨
      (uses_sun_events (rules?.getD schedule.rules) = true ∧
        (schedule.latitude = none ∨ schedule.longitude = none)) ∨
      schedule_points env schedule (rules?.getD schedule.rules) now = [] := by
  rw [target_brightness]
  by_cases h1 : schedule.enabled = true
  · rw [if_neg (by simp [h1])]
    dsimp only
    by_cases h2 : rules?.getD schedule.rules = []
    · rw [if_pos h2]
      simp [h2]
    · rw [if_neg h2]
      by_cases h3 : uses_sun_events (rules?.getD schedule.rules) = true ∧
          (schedule.latitude = none ∨ schedule.longitude = none)
      · rw [if_pos h3]
        simp [h3]
      · rw [if_neg h3]
        by_cases h4 : schedule_points env schedule (rules?.getD schedule.rules) now = []
        · rw [if_pos h4]
          simp [h4]
        · rw [if_neg h4]
          constructor
          · intro h
            split at h <;> exact absurd h (by simp)
          · intro h
            rcases h with h | h | h | h
            · rw [h1] at h
              exact absurd h (by simp)
            · exact absurd h h2
            · exact absurd h h3
            · exact absurd h h4
  · rw [if_pos (by simp [h1])]
    have h0 : schedule.enabled = false := by
      simp only [Bool.not_eq_true] at h1
      exact h1
    simp [h0]

theorem pyRoundReal_intCast (n : Int) : pyRoundReal (n : ℝ) = n := by
  unfold pyRoundReal
  rw [Int.floor_intCast]
  norm_num

theorem pyRoundReal_le (x : ℝ) : ⌊x⌋ ≤ pyRoundReal x ∧ pyRoundReal x ≤ ⌊x⌋ + 1 := by
  unfold pyRoundReal
  split_ifs <;> omega

theorem pyRoundReal_mono {x y : ℝ} (h : x ≤ y) : pyRoundReal x ≤ pyRoundReal y := by
  have hf : ⌊x⌋ ≤ ⌊y⌋ := Int.floor_le_floor h
  rcases lt_or_eq_of_le hf with hlt | heq
  · have h1 := (pyRoundReal_le x).2
    have h2 := (pyRoundReal_le y).1
    omega
  · unfold pyRoundReal
    rw [← heq]
    split_ifs <;> first | omega | linarith

theorem clamp_brightness_real_bounds (x : ℝ) :
    0 ≤ clamp_brightness_real x ∧ clamp_brightness_real x ≤ 100 := by
  unfold clamp_brightness_real
  omega

theorem clamp_brightness_real_mono {x y : ℝ} (h : x ≤ y) :
    clamp_brightness_real x ≤ clamp_brightness_real y := by
  unfold clamp_brightness_real
  have := pyRoundReal_mono h
  omega

theorem clamp_brightness_real_intCast_of_range {n : Int} (h0 : 0 ≤ n) (h1 : n ≤ 100) :
    clamp_brightness_real (n : ℝ) = n := by
  unfold clamp_brightness_real
  rw [pyRoundReal_intCast]
  omega

/-- C6: `mapLuxToBrightness` equals the specified formula
`clamp(0, 100, 6 + clamp01(log10(max(0, lux) + 1) / log10(801)) * (100 − 6))`,
always yields an integer in `[0, 100]`, maps 0 lux to 6 and 800 lux to 100,
and is monotone non-decreasing in lux. -/
theorem map_lux_to_brightness_spec :
    (∀ lux : ℝ, map_lux_to_brightness lux =
        clamp_brightness_real (6 +
          max 0 (min 1 (Real.logb 10 (max 0 lux + 1) / Real.logb 10 801)) * (100 - 6))) ∧
    (∀ lux : ℝ, 0 ≤ map_lux_to_brightness lux ∧ map_lux_to_brightness lux ≤ 100) ∧
    map_lux_to_brightness 0 = 6 ∧
    map_lux_to_brightness 800 = 100 ∧
    Monotone map_lux_to_brightness := by
  have hb : (1 : ℝ) < 10 := by norm_num
  refine ⟨fun lux => rfl, fun lux => clamp_brightness_real_bounds _, ?_, ?_, ?_⟩
  · simp only [map_lux_to_brightness]
    rw [show max (0 : ℝ) 0 + 1 = 1 by norm_num, Real.logb_one, zero_div]
    rw [show max (0 : ℝ) (min 1 0) = 0 by norm_num]
    rw [show (6 : ℝ) + 0 * (100 - 6) = ((6 : Int) : ℝ) by norm_num]
    exact clamp_brightness_real_intCast_of_range (by norm_num) (by norm_num)
  · simp only [map_lux_to_brightness]
    have hL : (0 : ℝ) < Real.logb 10 801 := Real.logb_pos hb (by norm_num)
    rw [show max (0 : ℝ) 800 + 1 = 801 by norm_num, div_self (ne_of_gt hL)]
    rw [show max (0 : ℝ) (min 1 1) = 1 by norm_num]
    rw [show (6 : ℝ) + 1 * (100 - 6) = ((100 : Int) : ℝ) by norm_num]
    exact clamp_brightness_real_intCast_of_range (by norm_num) (by norm_num)
  · intro x y h
    simp only [map_lux_to_brightness]
    apply clamp_brightness_real_mono
    have hL : (0 : ℝ) < Real.logb 10 801 := Real.logb_pos hb (by norm_num)
    have hx1 : (0 : ℝ) < max 0 x + 1 := by
      have := le_max_left (0 : ℝ) x
      linarith [le_max_left (0 : ℝ) x]
    have hlog : Real.logb 10 (max 0 x + 1) ≤ Real.logb 10 (max 0 y + 1) := by
      apply Real.logb_le_logb_of_le hb hx1
      have : max 0 x ≤ max 0 y := max_le_max (le_refl 0) h
      linarith
    have hdiv : Real.logb 10 (max 0 x + 1) / Real.logb 10 801
        ≤ Real.logb 10 (max 0 y + 1) / Real.logb 10 801 :=
      (div_le_div_iff_of_pos_right hL).mpr hlog
    have hclamp : max 0 (min 1 (Real.logb 10 (max 0 x + 1) / Real.logb 10 801))
        ≤ max 0 (min 1 (Real.logb 10 (max 0 y + 1) / Real.logb 10 801)) :=
      max_le_max (le_refl 0) (min_le_min (le_refl 1) hdiv)
    have hmul := mul_le_mul_of_nonneg_right hclamp (by norm_num : (0 : ℝ) ≤ 100 - 6)
    linarith

/-- C6 witness: monotonicity applied to `0 ≤ 800` gives
`map(0) ≤ map(800)`, and the value at 5 lux lies in `[0, 100]`. -/
theorem map_lux_to_brightness_spec_witness :
    map_lux_to_brightness 0 ≤ map_lux_to_brightness 800 ∧
    0 ≤ map_lux_to_brightness 5 ∧ map_lux_to_brightness 5 ≤ 100 :=
  ⟨map_lux_to_brightness_spec.2.2.2.2 (by norm_num : (0 : ℝ) ≤ 800),
   map_lux_to_brightness_spec.2.1 5⟩

theorem apply_map_rows_rows (values : List (String × Int)) :
    ∀ (rows : List MonitorRow) (levels : List (String × Int)),
      (apply_map_rows values levels rows).1 =
        rows.map (fun row =>
          match alLookup values row.key with
          | some v => { row with value := clamp_brightness_int v }
          | none => row) := by
  intro rows
  induction rows with
  | nil => intro levels; rfl
  | cons row rest ih =>
    intro levels
    cases h : alLookup values row.key with
    | none => simp [apply_map_rows, h, ih]
    | some v => simp [apply_map_rows, h, ih]

theorem apply_map_rows_applied (values : List (String × Int)) :
    ∀ (rows : List MonitorRow) (levels : List (String × Int)),
      (apply_map_rows values levels rows).2.2.2 =
        rows.filterMap (fun row => (alLookup values row.key).map clamp_brightness_int) := by
  intro rows
  induction rows with
  | nil => intro levels; rfl
  | cons row rest ih =>
    intro levels
    cases h : alLookup values row.key with
    | none => simp [apply_map_rows, h, ih]
    | some v => simp [apply_map_rows, h, ih]

theorem apply_map_rows_events (values : List (String × Int)) :
    ∀ (rows : List MonitorRow) (levels : List (String × Int)),
      (apply_map_rows values levels rows).2.2.1 =
        rows.filterMap (fun row => (alLookup values row.key).map
          (fun v => AppEvent.setBrightness row.key (clamp_brightness_int v))) := by
  intro rows
  induction rows with
  | nil => intro levels; rfl
  | cons row rest ih =>
    intro levels
    cases h : alLookup values row.key with
    | none => simp [apply_map_rows, h, ih]
    | some v => simp [apply_map_rows, h, ih]

/-- C9 (amended): after `apply_brightness_map` with a nonempty applied set,
each display present in the map receives its clamped mapped level, displays
absent from the map are untouched, and the global displayed value (and the
stored `last_global_brightness`) is the rounded average of the *applied*
levels only — not of all current per-display levels. -/
theorem apply_brightness_map_spec
    (st : TrayState) (values : List (String × Int)) (persist : Bool)
    (applied : List Int)
    (happlied : applied =
      st.rows.filterMap (fun row => (alLookup values row.key).map clamp_brightness_int))
    (hne : ¬applied = []) :
    (apply_brightness_map st values persist).1.rows =
      st.rows.map (fun row =>
        match alLookup values row.key with
        | some v => { row with value := clamp_brightness_int v }
        | none => row) ∧
    (apply_brightness_map st values persist).1.global_slider =
      clamp_brightness_int (pyRound
        (((applied.foldl (· + ·) 0 : Int) : ℚ) / (applied.length : ℚ))) ∧
    (apply_brightness_map st values persist).1.config.last_global_brightness =
      clamp_brightness_int (pyRound
        (((applied.foldl (· + ·) 0 : Int) : ℚ) / (applied.length : ℚ))) := by
  rw [apply_brightness_map]
  dsimp only
  rw [apply_map_rows_applied values st.rows st.config.monitor_levels, ← happlied,
    apply_map_rows_rows values st.rows st.config.monitor_levels]
  rw [if_neg hne]
  cases persist <;> simp [set_global_slider_value]

/-- C9 witness: rows A=10, B=90 with map `{B: 90}`: B is set to 90, A is
untouched, and the global value is the rounded average of the applied
list `[90]`. -/
theorem apply_brightness_map_spec_witness :
    (apply_brightness_map unevenState [("B", 90)] true).1.rows =
      unevenState.rows.map (fun row =>
        match alLookup [("B", 90)] row.key with
        | some v => { row with value := clamp_brightness_int v }
        | none => row) ∧
    (apply_brightness_map unevenState [("B", 90)] true).1.global_slider =
      clamp_brightness_int (pyRound
        ((([(90 : Int)].foldl (· + ·) 0 : Int) : ℚ) / (([(90 : Int)].length : Nat) : ℚ))) ∧
    (apply_brightness_map unevenState [("B", 90)] true).1.config.last_global_brightness =
      clamp_brightness_int (pyRound
        ((([(90 : Int)].foldl (· + ·) 0 : Int) : ℚ) / (([(90 : Int)].length : Nat) : ℚ))) :=
  apply_brightness_map_spec unevenState [("B", 90)] true [90] (by decide) (by simp)

/-- C9 counterexample: with rows A=10 and B=90 and the map `{B: 90}`, the
global displayed value after `apply_brightness_map` is 90, which is not the
rounded average (50) of all current per-display levels — displays absent
from the map are excluded from the average. -/
theorem apply_brightness_map_avg_counterexample :
    (apply_brightness_map unevenState [("B", 90)] true).1.global_slider ≠
      clamp_brightness_int (pyRound
        (((((apply_brightness_map unevenState [("B", 90)] true).1.rows.map
              MonitorRow.value).foldl (· + ·) 0 : Int) : ℚ) /
         (((apply_brightness_map unevenState [("B", 90)] true).1.rows.length : Nat) : ℚ))) := by
  norm_num +decide [apply_brightness_map, apply_map_rows, unevenState, defaultAppConfig,
    alLookup, alInsert, set_global_slider_value, pyRound, clamp_brightness_int,
    List.foldl, List.filterMap_cons]

theorem resolve_location_shape (env : SunEnv) (st : TrayState) :
    ((resolve_location_if_needed env st).2 = [] ∨
      ∃ cfg, (resolve_location_if_needed env st).2 = [AppEvent.persist cfg]) ∧
    (resolve_location_if_needed env st).1.config.link_mode = st.config.link_mode ∧
    (resolve_location_if_needed env st).1.rows = st.rows ∧
    (resolve_location_if_needed env st).1.expected_auto_targets
      = st.expected_auto_targets := by
  unfold resolve_location_if_needed
  repeat' split
  all_goals dsimp only
  all_goals repeat' split
  all_goals refine ⟨?_, rfl, rfl, rfl⟩
  all_goals first
    | exact Or.inl rfl
    | exact Or.inr ⟨_, rfl⟩

theorem apply_map_rows_events_shape (values : List (String × Int)) :
    ∀ (rows : List MonitorRow) (levels : List (String × Int)),
      ((apply_map_rows values levels rows).2.2.1).filter isLinkModeEvent = [] ∧
      ((apply_map_rows values levels rows).2.2.1).filter isSetBrightnessEvent
        = (apply_map_rows values levels rows).2.2.1 := by
  intro rows
  induction rows with
  | nil => intro levels; exact ⟨rfl, rfl⟩
  | cons row rest ih =>
    intro levels
    cases h : alLookup values row.key with
    | none => simp [apply_map_rows, h, ih]
    | some v =>
      simp [apply_map_rows, h, List.filter_cons, isLinkModeEvent, isSetBrightnessEvent,
        (ih (alInsert levels row.key (clamp_brightness_int v))).1,
        (ih (alInsert levels row.key (clamp_brightness_int v))).2]

theorem apply_brightness_map_events_no_link (st : TrayState)
    (values : List (String × Int)) (persist : Bool) :
    ((apply_brightness_map st values persist).2).filter isLinkModeEvent = [] := by
  rw [apply_brightness_map]
  dsimp only
  split_ifs with h1 h2
  · rfl
  · rw [List.filter_append,
      (apply_map_rows_events_shape values st.rows st.config.monitor_levels).1]
    rfl
  · exact (apply_map_rows_events_shape values st.rows st.config.monitor_levels).1

theorem apply_brightness_map_link_mode (st : TrayState)
    (values : List (String × Int)) (persist : Bool) :
    (apply_brightness_map st values persist).1.config.link_mode
      = st.config.link_mode := by
  rw [apply_brightness_map]
  dsimp only
  split_ifs with h1 h2 <;> rfl

theorem filterMap_lookup_map_length (rows : List MonitorRow)
    (t : List (String × Int)) (g : Int → Int) :
    (rows.filterMap (fun row => (alLookup t row.key).map g)).length
      = (rows.filterMap (fun row => alLookup t row.key)).length := by
  induction rows with
  | nil => rfl
  | cons row rest ih => cases h : alLookup t row.key <;> simp [h, ih]

theorem alLookup_nil (k : String) : alLookup [] k = none := rfl

theorem conflict_targets_ne_nil {st : TrayState} {targets : List (String × Int)}
    (hconf : has_link_mode_conflict st targets = true) : ¬targets = [] := by
  intro h
  rw [h] at hconf
  rw [has_link_mode_conflict] at hconf
  have hz : st.rows.filterMap (fun row => alLookup [] row.key) = [] := by
    simp [alLookup_nil]
  rw [hz] at hconf
  simp at hconf

theorem apply_brightness_map_rows_of_ne (st : TrayState)
    (values : List (String × Int)) (persist : Bool)
    (hne : ¬st.rows.filterMap
      (fun row => (alLookup values row.key).map clamp_brightness_int) = []) :
    (apply_brightness_map st values persist).1.rows =
      st.rows.map (fun row =>
        match alLookup values row.key with
        | some v => { row with value := clamp_brightness_int v }
        | none => row) := by
  rw [apply_brightness_map]
  dsimp only
  rw [apply_map_rows_applied values st.rows st.config.monitor_levels, if_neg hne]
  cases persist <;> simp [set_global_slider_value, apply_map_rows_rows]

/-- C4: when the per-tick schedule dispatch computes divergent targets for
two or more active displays while link mode is on (ambient auto off,
schedule enabled), link mode ends up off and the tick's event trace holds
exactly one `set_link_mode` call — disabling and persisting link mode —
placed before every brightness application; and when the tick applies its
targets (a forced refresh or targets differing from the previous tick's),
each display present in the target map receives its own clamped scheduled
value. -/
theorem link_mode_conflict_spec
    (env : SunEnv) (now : ℚ) (st : TrayState) (force_apply : Bool)
    (loc : TrayState × List AppEvent) (targets : List (String × Int))
    (out : TrayState × List AppEvent)
    (hloc : loc = if schedule_has_sun_rules st = true ∧
        (st.config.schedule.latitude = none ∨ st.config.schedule.longitude = none) then
        resolve_location_if_needed env st else (st, []))
    (htargets : targets = calculate_schedule_targets env loc.1 now)
    (hout : out = update_schedule_now env now st force_apply)
    (hamb : st.config.ambient_auto_enabled = false)
    (hen : st.config.schedule.enabled = true)
    (hlink : st.config.link_mode = true)
    (hconf : has_link_mode_conflict loc.1 targets = true) :
    out.1.config.link_mode = false ∧
    out.2.filter isLinkModeEvent = [AppEvent.setLinkModeCall false] ∧
    (∃ cfg1 post, out.2 = loc.2 ++ AppEvent.setLinkModeCall false ::
        AppEvent.persist cfg1 :: post ∧
      cfg1.link_mode = false ∧ loc.2.filter isSetBrightnessEvent = []) ∧
    ((force_apply = true ∨ pyDictEq targets loc.1.expected_auto_targets = false) →
      out.1.rows = loc.1.rows.map (fun row =>
        match alLookup targets row.key with
        | some v => { row with value := clamp_brightness_int v }
        | none => row)) := by
  have hlshape : (loc.2 = [] ∨ ∃ cfg, loc.2 = [AppEvent.persist cfg]) ∧
      loc.1.config.link_mode = st.config.link_mode ∧
      loc.1.rows = st.rows ∧
      loc.1.expected_auto_targets = st.expected_auto_targets := by
    rw [hloc]
    split_ifs with h
    · exact resolve_location_shape env st
    · exact ⟨Or.inl rfl, rfl, rfl, rfl⟩
  have hl_link : loc.1.config.link_mode = true := hlshape.2.1.trans hlink
  have htne : ¬targets = [] := conflict_targets_ne_nil hconf
  have hl_nolink : loc.2.filter isLinkModeEvent = [] := by
    rcases hlshape.1 with h | ⟨cfg, h⟩ <;> rw [h] <;> rfl
  have hl_nobright : loc.2.filter isSetBrightnessEvent = [] := by
    rcases hlshape.1 with h | ⟨cfg, h⟩ <;> rw [h] <;> rfl
  rw [update_schedule_now, if_neg (by simp [hamb]), if_neg (by simp [hen]),
    ← hloc] at hout
  dsimp only at hout
  rw [← htargets] at hout
  simp only [eq_true hl_link, eq_true hconf, eq_false htne, true_and, and_self,
    if_true, if_false, set_link_mode, Bool.false_eq_true, false_and, and_false,
    ite_false, ite_true, apply_schedule_targets] at hout
  by_cases hc : ¬force_apply = true ∧ pyDictEq targets loc.1.expected_auto_targets = true
  · rw [if_pos hc] at hout
    subst hout
    refine ⟨rfl, ?_, ?_, ?_⟩
    · rw [List.filter_append, hl_nolink]
      rfl
    · exact ⟨{ loc.1.config with link_mode := false }, [], rfl, rfl, hl_nobright⟩
    · intro hg
      rcases hg with hg | hg
      · exact absurd hg hc.1
      · rw [hc.2] at hg
        exact absurd hg (by simp)
  · rw [if_neg hc] at hout
    have happne : ¬(loc.1.rows.filterMap
        (fun row => (alLookup targets row.key).map clamp_brightness_int)) = [] := by
      intro hnil
      have hlen := filterMap_lookup_map_length loc.1.rows targets clamp_brightness_int
      rw [hnil] at hlen
      simp only [List.length_nil] at hlen
      simp only [has_link_mode_conflict, decide_eq_true_eq] at hconf
      omega
    subst hout
    refine ⟨?_, ?_, ?_, ?_⟩
    · exact apply_brightness_map_link_mode _ targets true
    · rw [List.filter_append, List.filter_append, hl_nolink,
        apply_brightness_map_events_no_link]
      rfl
    · refine ⟨{ loc.1.config with link_mode := false },
        (apply_brightness_map { loc.1 with
          config := { loc.1.config with link_mode := false } } targets true).2,
        ?_, rfl, hl_nobright⟩
      rw [List.append_assoc]
      rfl
    · intro hg
      exact apply_brightness_map_rows_of_ne _ targets true happne

/-- C4 witness: divergent targets 40 and 60 for displays A and B while
linked: link mode ends false, the trace holds exactly one link-mode call
(the flip to false) with its persist before any brightness application,
and both displays receive their own scheduled values. -/
theorem link_mode_conflict_spec_witness :
    (update_schedule_now dayZeroEnv 700 conflictState false).1.config.link_mode = false ∧
    (update_schedule_now dayZeroEnv 700 conflictState false).2.filter isLinkModeEvent
      = [AppEvent.setLinkModeCall false] ∧
    (∃ cfg1 post, (update_schedule_now dayZeroEnv 700 conflictState false).2 =
        ([] : List AppEvent) ++ AppEvent.setLinkModeCall false ::
          AppEvent.persist cfg1 :: post ∧
      cfg1.link_mode = false ∧
      ([] : List AppEvent).filter isSetBrightnessEvent = []) ∧
    ((false = true ∨ pyDictEq [("A", 40), ("B", 60)]
        conflictState.expected_auto_targets = false) →
      (update_schedule_now dayZeroEnv 700 conflictState false).1.rows =
        conflictState.rows.map (fun row =>
          match alLookup [("A", 40), ("B", 60)] row.key with
          | some v => { row with value := clamp_brightness_int v }
          | none => row)) :=
  link_mode_conflict_spec dayZeroEnv 700 conflictState false
    (conflictState, []) [("A", 40), ("B", 60)]
    (update_schedule_now dayZeroEnv 700 conflictState false)
    (by decide)
    (by norm_num +decide [calculate_schedule_targets, calculate_targets_from,
      rules_for_display_index, conflictState, defaultAppConfig, target_brightness,
      schedule_points, day_points, uses_sun_events, dayZeroEnv, List.flatMap,
      List.filterMap_cons, List.filter, sortPoints, insertPoint, selection_loop,
      clamp_brightness, pyRound, List.getLastD, List.headD, List.getLast?,
      List.foldl, List.head?])
    rfl rfl rfl rfl (by decide)

/-- C8 (code bug): the payload `ConfigStore.save` writes has no `theme`
field — its keys are exactly version, link_mode, ambient_auto_enabled,
last_global_brightness, monitor_levels, startup_enabled, schedule — and
`_parse` never reads one, so a config saved with the light theme reloads
with the default dark theme. -/
theorem save_config_drops_theme :
    jKeys (save_config lightConfig) =
      ["version", "link_mode", "ambient_auto_enabled", "last_global_brightness",
       "monitor_levels", "startup_enabled", "schedule"] ∧
    ¬"theme" ∈ jKeys (save_config lightConfig) ∧
    (parse_config (save_config lightConfig)).map AppConfig.theme = some "dark" := by
  refine ⟨rfl, by decide, by decide⟩

/-- C7 counterexample: the config with an empty rule list is well-formed
(all fields in range, `specific_time` iff fixed-time anchor), yet saving,
loading and saving again does not reproduce the first payload —
`_parse_rules` replaces an empty rule list with the six default rules. -/
theorem config_roundtrip_counterexample :
    ConfigWF emptyRulesConfig = true ∧
    (parse_config (save_config emptyRulesConfig)).map save_config ≠
      some (save_config emptyRulesConfig) := by
  refine ⟨by decide, ?_⟩
  intro h
  exact absurd (congrArg (Option.map schedule_rules_count) h) (by decide)

theorem parse_save_rule (r : ScheduleRule) (h : RuleWF r = true) :
    parse_rule_item (save_rule r) = some (some r) := by
  obtain ⟨anchor, offset, bright, target, st⟩ := r
  simp only [RuleWF, Bool.and_eq_true, decide_eq_true_eq] at h
  cases anchor with
  | sunrise =>
    cases st with
    | some t => simp at h
    | none =>
      cases target <;>
        simp +decide [save_rule, parse_rule_item, jGetD, pyStr, jOptStr, pyIntCoe,
          pyClampJ, target_str, anchor_str, clamp_brightness_int] <;>
        omega
  | sunset =>
    cases st with
    | some t => simp at h
    | none =>
      cases target <;>
        simp +decide [save_rule, parse_rule_item, jGetD, pyStr, jOptStr, pyIntCoe,
          pyClampJ, target_str, anchor_str, clamp_brightness_int] <;>
        omega
  | time =>
    cases st with
    | none => simp at h
    | some t =>
      have hnorm : normalize_time_text (.str t) = some t := by
        simp at h
        exact h.2
      have hoff : offset = 0 := by
        simp at h
        exact h.1.2
      cases target <;>
        simp +decide [save_rule, parse_rule_item, jGetD, pyStr, jOptStr, pyIntCoe,
          pyClampJ, target_str, anchor_str, clamp_brightness_int, hnorm, hoff] <;>
        omega

theorem pyClampJ_int (n : Int) : pyClampJ (JValue.int n) = some (clamp_brightness_int n) := rfl

theorem pyIntCoe_int (n : Int) : pyIntCoe (JValue.int n) = some n := rfl

theorem pyBool_bool (b : Bool) : pyBool (JValue.bool b) = b := rfl

theorem mapM_parse_save_rules :
    ∀ rules : List ScheduleRule, rules.all RuleWF = true →
      optionMapM parse_rule_item (rules.map save_rule) = some (rules.map some) := by
  intro rules
  induction rules with
  | nil => intro _; rfl
  | cons r rest ih =>
    intro h
    simp only [List.all_cons, Bool.and_eq_true] at h
    simp [optionMapM, parse_save_rule r h.1, ih h.2]

theorem filterMap_id_map_some (rules : List ScheduleRule) :
    (rules.map some).filterMap id = rules := by
  induction rules with
  | nil => rfl
  | cons r rest ih => simp [ih]

theorem parse_rules_save (rules : List ScheduleRule)
    (h : rules.all RuleWF = true) (hne : ¬rules = []) :
    parse_rules (.arr (rules.map save_rule)) = some rules := by
  simp only [parse_rules]
  rw [mapM_parse_save_rules rules h]
  simp [filterMap_id_map_some, hne]

theorem mapM_parse_save_levels :
    ∀ levels : List (String × Int),
      levels.all (fun p => decide (0 ≤ p.2) && decide (p.2 ≤ 100)) = true →
      optionMapM (fun p => (pyClampJ p.2).map (fun v => (p.1, v)))
          (levels.map (fun p => (p.1, JValue.int (clamp_brightness_int p.2)))) = some levels := by
  intro levels
  induction levels with
  | nil => intro _; rfl
  | cons p rest ih =>
    intro h
    simp only [List.all_cons, Bool.and_eq_true, decide_eq_true_eq] at h
    have hp : clamp_brightness_int (clamp_brightness_int p.2) = p.2 := by
      have := h.1
      unfold clamp_brightness_int
      omega
    simp [optionMapM, pyClampJ_int, hp, ih h.2]

theorem optional_float_jOptFloat (q : Option ℚ) :
    optional_float (jOptFloat q) = q := by
  cases q <;> rfl

/-- C7 (amended): for every well-formed config — fields within their
declared ranges, `specific_time` a normalised `HH:MM` string present iff
the anchor is a fixed time, offset 0 for fixed times — **with at least one
schedule rule**, `save(load(save(cfg)))` produces field-for-field the same
persisted payload as `save(cfg)`.  (With an empty rule list the loader
substitutes the default rules, so the payloads differ; only the `theme`
field of the in-memory config is lost, and it never reaches the payload.) -/
theorem config_roundtrip_spec (cfg : AppConfig)
    (hwf : ConfigWF cfg = true) (hne : ¬cfg.schedule.rules = []) :
    (parse_config (save_config cfg)).map save_config = some (save_config cfg) := by
  obtain ⟨version, theme, link, amb, lastg, levels, startup, en, gr, auto, lat, lon, rules⟩ := cfg
  simp only [ConfigWF, Bool.and_eq_true, decide_eq_true_eq] at hwf
  simp only at hne
  have hlast : clamp_brightness_int (clamp_brightness_int lastg) = lastg := by
    have h1 := hwf.1.1.1
    have h2 := hwf.1.1.2
    unfold clamp_brightness_int
    omega
  have hparse : parse_config (save_config
      ⟨version, theme, link, amb, lastg, levels, startup, en, gr, auto, lat, lon, rules⟩) =
      some ⟨version, "dark", link, amb, lastg, levels, startup, en, gr, auto, lat, lon, rules⟩ := by
    simp +decide [save_config, parse_config, jGetD, pyIntCoe_int, pyBool_bool,
      pyClampJ_int, optional_float_jOptFloat, parse_rules_save rules hwf.2 hne,
      mapM_parse_save_levels levels hwf.1.2, hlast]
  rw [hparse]
  rfl

/-- C7 witness: the round trip reproduces the payload of a well-formed
config with a fixed-time rule (`07:30`) and a sunset rule. -/
theorem config_roundtrip_spec_witness :
    (parse_config (save_config roundtripConfig)).map save_config
      = some (save_config roundtripConfig) :=
  config_roundtrip_spec roundtripConfig (by decide) (by decide)
